import Mathlib

/-!
Verification of the QXMP Labs RWA on-chain core: the asset registry
(QXMPAssetRegistry.sol) and the attestation submission coordinator
(QXMPProofOfReserve.sol), shallowly embedded in Lean 4.

Modelling conventions:
- bytes32 values and addresses are modelled as Nat; the zero address is 0.
- uint256 is Nat: the contracts only store and compare these quantities,
  never perform arithmetic on them, so no overflow reduction is needed.
- A Solidity external call either commits in full or reverts in full; we
  model each external function as a pure function returning
  Except Error State. An error result means revert: the caller keeps the
  pre-call state (made explicit by commitReg and commitPoR below).
- msg.sender and block.timestamp are explicit parameters sender and now.
- The RedStone verifier getOracleNumericValueFromTxMsg is external to the
  repository; it is a parameter oracle mapping a data feed id to
  some value (quorum verification succeeded) or none (it failed closed).
- The coordinator calls the registry from its own contract address; the
  field selfAddr of PoRState carries that address, and sub-calls into the
  registry use it as the sender.
-/

namespace QXMP

/-- The Asset struct of QXMPAssetRegistry.sol, field for field. -/
structure Asset where
  assetCode : Nat
  assetName : String
  reportingStandard : String
  jurisdiction : String
  assetValueUsd : Nat
  mineralResourcesMt : Nat
  goldOzInSitu : Nat
  reportHash : Nat
  lastUpdated : Nat
  holder : Nat
  isActive : Bool
deriving DecidableEq

/-- Zero-initialized Asset: the value of an unset mapping slot in Solidity. -/
def defaultAsset : Asset :=
  { assetCode := 0, assetName := "", reportingStandard := "", jurisdiction := ""
    assetValueUsd := 0, mineralResourcesMt := 0, goldOzInSitu := 0
    reportHash := 0, lastUpdated := 0, holder := 0, isActive := false }

/-- Storage of QXMPAssetRegistry: the assets mapping, the assetCodes array
and the owner address. -/
structure RegistryState where
  assets : Nat → Asset
  assetCodes : List Nat
  owner : Nat

/-- Error taxonomy of the registry, one constructor per require site
(names follow the specification taxonomy, conditions follow the code). -/
inductive RegistryError where
  | Unauthorized
  | AlreadyExists
  | NotFound
  | InvalidValue
  | InvalidHolder
  | IndexOutOfRange
deriving DecidableEq

/-- Pointwise update of the assets mapping. -/
def setAsset (m : Nat → Asset) (c : Nat) (a : Asset) : Nat → Asset :=
  fun k => if k = c then a else m k

/-- The constructor: owner is the deployer, storage is zero-initialized. -/
def initRegistry (deployer : Nat) : RegistryState :=
  { assets := fun _ => defaultAsset, assetCodes := [], owner := deployer }

/-- registerAsset: onlyOwner; requires the slot not active, value positive,
holder non-zero; writes the record, pushes the code, activates. -/
def registerAsset (s : RegistryState) (sender now : Nat)
    (assetCode : Nat) (assetName reportingStandard jurisdiction : String)
    (assetValueUsd mineralResourcesMt goldOzInSitu reportHash holderAddress : Nat) :
    Except RegistryError RegistryState :=
  if ¬ (sender = s.owner) then .error .Unauthorized
  else if (s.assets assetCode).isActive then .error .AlreadyExists
  else if ¬ (0 < assetValueUsd) then .error .InvalidValue
  else if holderAddress = 0 then .error .InvalidHolder
  else .ok { s with
    assets := setAsset s.assets assetCode
      { assetCode := assetCode, assetName := assetName
        reportingStandard := reportingStandard, jurisdiction := jurisdiction
        assetValueUsd := assetValueUsd, mineralResourcesMt := mineralResourcesMt
        goldOzInSitu := goldOzInSitu, reportHash := reportHash
        lastUpdated := now, holder := holderAddress, isActive := true }
    assetCodes := s.assetCodes ++ [assetCode] }

/-- updateAssetValue: onlyOwner, assetExists (active), new value positive;
sets assetValueUsd and lastUpdated. -/
def updateAssetValue (s : RegistryState) (sender now : Nat)
    (assetCode newValueUsd : Nat) : Except RegistryError RegistryState :=
  if ¬ (sender = s.owner) then .error .Unauthorized
  else if ¬ (s.assets assetCode).isActive then .error .NotFound
  else if ¬ (0 < newValueUsd) then .error .InvalidValue
  else .ok { s with
    assets := setAsset s.assets assetCode
      { s.assets assetCode with assetValueUsd := newValueUsd, lastUpdated := now } }

/-- deactivateAsset: onlyOwner, assetExists; clears isActive only. -/
def deactivateAsset (s : RegistryState) (sender : Nat) (assetCode : Nat) :
    Except RegistryError RegistryState :=
  if ¬ (sender = s.owner) then .error .Unauthorized
  else if ¬ (s.assets assetCode).isActive then .error .NotFound
  else .ok { s with
    assets := setAsset s.assets assetCode
      { s.assets assetCode with isActive := false } }

/-- getAsset: assetExists, then returns the stored record. -/
def getAsset (s : RegistryState) (assetCode : Nat) : Except RegistryError Asset :=
  if ¬ (s.assets assetCode).isActive then .error .NotFound
  else .ok (s.assets assetCode)

/-- verifyReportHash: assetExists, then equality of the stored hash with
the candidate. -/
def verifyReportHash (s : RegistryState) (assetCode reportHash : Nat) :
    Except RegistryError Bool :=
  if ¬ (s.assets assetCode).isActive then .error .NotFound
  else .ok (decide ((s.assets assetCode).reportHash = reportHash))

/-- getAssetCount: length of the assetCodes array. -/
def getAssetCount (s : RegistryState) : Nat :=
  s.assetCodes.length

/-- getAssetCodeByIndex: bounds check, then the array element. -/
def getAssetCodeByIndex (s : RegistryState) (index : Nat) : Except RegistryError Nat :=
  if ¬ (index < s.assetCodes.length) then .error .IndexOutOfRange
  else .ok (s.assetCodes.getD index 0)

/-- transferOwnership on the registry: onlyOwner, new owner non-zero. -/
def transferOwnership (s : RegistryState) (sender newOwner : Nat) :
    Except RegistryError RegistryState :=
  if ¬ (sender = s.owner) then .error .Unauthorized
  else if newOwner = 0 then .error .InvalidHolder
  else .ok { s with owner := newOwner }

/-- Commit-or-revert semantics of an external call on the registry: an
error result leaves the caller with the pre-call state. -/
def commitReg (s : RegistryState) : Except RegistryError RegistryState → RegistryState
  | .ok s2 => s2
  | .error _ => s

/-- One mutating registry call (the four state-changing entry points). -/
inductive RegCall where
  | register (assetCode : Nat) (assetName reportingStandard jurisdiction : String)
      (assetValueUsd mineralResourcesMt goldOzInSitu reportHash holderAddress : Nat)
  | update (assetCode newValueUsd : Nat)
  | deactivate (assetCode : Nat)
  | transfer (newOwner : Nat)

/-- Dispatch a mutating registry call. -/
def runReg (s : RegistryState) (sender now : Nat) :
    RegCall → Except RegistryError RegistryState
  | .register c n st j v mt oz h hold => registerAsset s sender now c n st j v mt oz h hold
  | .update c v => updateAssetValue s sender now c v
  | .deactivate c => deactivateAsset s sender c
  | .transfer o => transferOwnership s sender o

/-- The Proof struct of QXMPProofOfReserve.sol. -/
structure Reserve where
  value : Nat
  timestamp : Nat
  dataFeedId : Nat
deriving DecidableEq

/-- Storage of QXMPProofOfReserve: the referenced registry (inlined as
state, see the header), the latestProofs mapping, the owner, and the
contract address selfAddr used as sender of sub-calls. -/
structure PoRState where
  registry : RegistryState
  latestProofs : Nat → Reserve
  owner : Nat
  selfAddr : Nat

/-- Error taxonomy of the coordinator; RegistryCall wraps an error raised
inside a sub-call into the registry. -/
inductive PoRError where
  | Unauthorized
  | AttestationFailed
  | InvalidOracleValue
  | InvalidHolder
  | InvalidReference
  | RegistryCall (e : RegistryError)
deriving DecidableEq

/-- Pointwise update of the latestProofs mapping. -/
def setReserve (m : Nat → Reserve) (c : Nat) (p : Reserve) : Nat → Reserve :=
  fun k => if k = c then p else m k

/-- The coordinator constructor: owner is the deployer, no proofs yet. -/
def initPoR (deployer selfAddr : Nat) (reg : RegistryState) : PoRState :=
  { registry := reg
    latestProofs := fun _ => { value := 0, timestamp := 0, dataFeedId := 0 }
    owner := deployer, selfAddr := selfAddr }

/-- submitProof: onlyOwner; reads the oracle value for the feed (the
verifier fails closed on none); requires it positive; stores the proof,
then calls updateAssetValue on the registry as the coordinator. A failing
sub-call reverts the whole call, proof write included. -/
def submitProof (oracle : Nat → Option Nat) (s : PoRState)
    (sender now assetCode dataFeedId : Nat) : Except PoRError PoRState :=
  if ¬ (sender = s.owner) then .error .Unauthorized
  else match oracle dataFeedId with
    | none => .error .AttestationFailed
    | some oracleValue =>
      if ¬ (0 < oracleValue) then .error .InvalidOracleValue
      else match updateAssetValue s.registry s.selfAddr now assetCode oracleValue with
        | .error e => .error (.RegistryCall e)
        | .ok r => .ok { s with
            registry := r
            latestProofs := setReserve s.latestProofs assetCode
              { value := oracleValue, timestamp := now, dataFeedId := dataFeedId } }

/-- getLatestProof: unguarded read of the latestProofs mapping. -/
def getLatestProof (s : PoRState) (assetCode : Nat) : Reserve :=
  s.latestProofs assetCode

/-- The registerAsset forwarder on the coordinator: onlyOwner, then the
registry call with the coordinator as sender. -/
def porRegisterAsset (s : PoRState) (sender now : Nat)
    (assetCode : Nat) (assetName reportingStandard jurisdiction : String)
    (assetValueUsd mineralResourcesMt goldOzInSitu reportHash holderAddress : Nat) :
    Except PoRError PoRState :=
  if ¬ (sender = s.owner) then .error .Unauthorized
  else match registerAsset s.registry s.selfAddr now assetCode assetName
      reportingStandard jurisdiction assetValueUsd mineralResourcesMt
      goldOzInSitu reportHash holderAddress with
    | .error e => .error (.RegistryCall e)
    | .ok r => .ok { s with registry := r }

/-- updateRegistry: onlyOwner, non-zero new registry address; swaps the
referenced registry. -/
def updateRegistry (s : PoRState) (sender : Nat) (newAddr : Nat)
    (newReg : RegistryState) : Except PoRError PoRState :=
  if ¬ (sender = s.owner) then .error .Unauthorized
  else if newAddr = 0 then .error .InvalidReference
  else .ok { s with registry := newReg }

/-- transferOwnership on the coordinator: onlyOwner, new owner non-zero. -/
def porTransferOwnership (s : PoRState) (sender newOwner : Nat) :
    Except PoRError PoRState :=
  if ¬ (sender = s.owner) then .error .Unauthorized
  else if newOwner = 0 then .error .InvalidHolder
  else .ok { s with owner := newOwner }

/-- Commit-or-revert semantics of an external call on the coordinator. -/
def commitPoR (s : PoRState) : Except PoRError PoRState → PoRState
  | .ok s2 => s2
  | .error _ => s

/-- One mutating coordinator call. -/
inductive PoRCall where
  | submit (assetCode dataFeedId : Nat)
  | register (assetCode : Nat) (assetName reportingStandard jurisdiction : String)
      (assetValueUsd mineralResourcesMt goldOzInSitu reportHash holderAddress : Nat)
  | setRegistry (newAddr : Nat) (newReg : RegistryState)
  | transfer (newOwner : Nat)

/-- Dispatch a mutating coordinator call. -/
def runPoR (oracle : Nat → Option Nat) (s : PoRState) (sender now : Nat) :
    PoRCall → Except PoRError PoRState
  | .submit c f => submitProof oracle s sender now c f
  | .register c n st j v mt oz h hold =>
      porRegisterAsset s sender now c n st j v mt oz h hold
  | .setRegistry a r => updateRegistry s sender a r
  | .transfer o => porTransferOwnership s sender o

/-- The registry record invariant: every active record has a positive
value and a non-zero holder. -/
def RegInv (s : RegistryState) : Prop :=
  ∀ c, (s.assets c).isActive = true →
    0 < (s.assets c).assetValueUsd ∧ (s.assets c).holder ≠ 0

/-- One observable transition of registry state: either a direct mutating
call, or a submitProof on a coordinator that references it. -/
inductive RegStep : RegistryState → RegistryState → Prop where
  | direct (s s2 : RegistryState) (sender now : Nat) (c : RegCall) :
      runReg s sender now c = .ok s2 → RegStep s s2
  | viaCoordinator (oracle : Nat → Option Nat) (p p2 : PoRState)
      (sender now assetCode dataFeedId : Nat) :
      submitProof oracle p sender now assetCode dataFeedId = .ok p2 →
      RegStep p.registry p2.registry

/-- A registry state is reachable when a finite sequence of committed
transitions leads to it from a freshly deployed registry. -/
def Reachable (s : RegistryState) : Prop :=
  ∃ deployer, Relation.ReflTransGen RegStep (initRegistry deployer) s

/-- Concrete scenario: deploy as address 1, register code 5, deactivate
it, register code 5 again. -/
def demoS0 : RegistryState := initRegistry 1

/-- First registration of code 5 at time 100. -/
def demoStep1 : Except RegistryError RegistryState :=
  registerAsset demoS0 1 100 5 "AEM Gold Project" "NI 43-101" "ZA"
    6800000000 520 31000000 777 9

/-- Deactivation of code 5. -/
def demoStep2 : Except RegistryError RegistryState :=
  Except.bind demoStep1 (fun s => deactivateAsset s 1 5)

/-- Second registration of code 5 at time 200, after the deactivation. -/
def demoStep3 : Except RegistryError RegistryState :=
  Except.bind demoStep2 (fun s => registerAsset s 1 200 5 "AEM Gold Project"
    "NI 43-101" "ZA" 7000000000 520 31000000 777 9)

/-- A concrete registry state with code 5 active, for witnesses. -/
def wReg : RegistryState := commitReg demoS0 demoStep1

/-- A concrete coordinator owned by 1 at address 3, whose registry is
owned by its own address 3 and has code 5 active. -/
def wPoR : PoRState :=
  initPoR 1 3 (commitReg (initRegistry 3)
    (registerAsset (initRegistry 3) 3 100 5 "AEM Gold Project" "NI 43-101" "ZA"
      6800000000 520 31000000 777 9))

/-- A concrete oracle answering 7000000000 on every feed. -/
def wOracle : Nat → Option Nat := fun _ => some 7000000000

/-- A concrete registry state in which code 5 is present but inactive. -/
def wInact : RegistryState := commitReg demoS0 demoStep2

/-- A fresh registry, deployed by 2, with code 6 registered under an
all-zero document hash. -/
def c6state : Except RegistryError RegistryState :=
  registerAsset (initRegistry 2) 2 10 6 "Zero Hash Asset" "JORC" "AU" 5 0 0 0 4

/-- A fresh registry, deployed by 4, with code 8 registered under an
all-zero document hash. -/
def c9state : Except RegistryError RegistryState :=
  registerAsset (initRegistry 4) 4 20 8 "Hashless Asset" "GIA" "CH" 3 0 0 0 6

theorem registerAsset_ok_elim (s : RegistryState) (sender now assetCode : Nat)
    (n st j : String) (v mt oz h hold : Nat) (s2 : RegistryState)
    (hs : registerAsset s sender now assetCode n st j v mt oz h hold = .ok s2) :
    sender = s.owner ∧ (s.assets assetCode).isActive = false ∧ 0 < v ∧ hold ≠ 0 ∧
    s2 = { s with
      assets := setAsset s.assets assetCode
        { assetCode := assetCode, assetName := n
          reportingStandard := st, jurisdiction := j
          assetValueUsd := v, mineralResourcesMt := mt
          goldOzInSitu := oz, reportHash := h
          lastUpdated := now, holder := hold, isActive := true }
      assetCodes := s.assetCodes ++ [assetCode] } := by
  unfold registerAsset at hs
  split at hs
  · cases hs
  · split at hs
    · cases hs
    · split at hs
      · cases hs
      · split at hs
        · cases hs
        · cases hs
          refine ⟨by omega, ?_, by omega, ?_, rfl⟩
          · simp_all
          · assumption

theorem updateAssetValue_ok_elim (s : RegistryState) (sender now assetCode v : Nat)
    (s2 : RegistryState)
    (hs : updateAssetValue s sender now assetCode v = .ok s2) :
    sender = s.owner ∧ (s.assets assetCode).isActive = true ∧ 0 < v ∧
    s2 = { s with
      assets := setAsset s.assets assetCode
        { s.assets assetCode with assetValueUsd := v, lastUpdated := now } } := by
  unfold updateAssetValue at hs
  split at hs
  · cases hs
  · split at hs
    · cases hs
    · split at hs
      · cases hs
      · cases hs
        refine ⟨by omega, ?_, by omega, rfl⟩
        simp_all

theorem deactivateAsset_ok_elim (s : RegistryState) (sender assetCode : Nat)
    (s2 : RegistryState) (hs : deactivateAsset s sender assetCode = .ok s2) :
    sender = s.owner ∧ (s.assets assetCode).isActive = true ∧
    s2 = { s with
      assets := setAsset s.assets assetCode
        { s.assets assetCode with isActive := false } } := by
  unfold deactivateAsset at hs
  split at hs
  · cases hs
  · split at hs
    · cases hs
    · cases hs
      refine ⟨by omega, ?_, rfl⟩
      simp_all

theorem transferOwnership_ok_elim (s : RegistryState) (sender newOwner : Nat)
    (s2 : RegistryState) (hs : transferOwnership s sender newOwner = .ok s2) :
    sender = s.owner ∧ newOwner ≠ 0 ∧ s2 = { s with owner := newOwner } := by
  unfold transferOwnership at hs
  split at hs
  · cases hs
  · split at hs
    · cases hs
    · cases hs
      exact ⟨by omega, by assumption, rfl⟩

theorem regInv_register (s s2 : RegistryState) (sender now assetCode : Nat)
    (n st j : String) (v mt oz h hold : Nat)
    (hs : registerAsset s sender now assetCode n st j v mt oz h hold = .ok s2)
    (hinv : RegInv s) : RegInv s2 := by
  obtain ⟨-, -, hv, hh, rfl⟩ :=
    registerAsset_ok_elim s sender now assetCode n st j v mt oz h hold s2 hs
  intro k hk
  by_cases hkc : k = assetCode
  · subst hkc; simpa [setAsset] using ⟨hv, hh⟩
  · simp only [setAsset, hkc, if_false] at hk ⊢
    exact hinv k hk

theorem regInv_update (s s2 : RegistryState) (sender now assetCode v : Nat)
    (hs : updateAssetValue s sender now assetCode v = .ok s2)
    (hinv : RegInv s) : RegInv s2 := by
  obtain ⟨-, hact, hv, rfl⟩ := updateAssetValue_ok_elim s sender now assetCode v s2 hs
  intro k hk
  by_cases hkc : k = assetCode
  · subst hkc
    exact ⟨by simpa [setAsset] using hv, by simpa [setAsset] using (hinv k hact).2⟩
  · simp only [setAsset, hkc, if_false] at hk ⊢
    exact hinv k hk

theorem regInv_deactivate (s s2 : RegistryState) (sender assetCode : Nat)
    (hs : deactivateAsset s sender assetCode = .ok s2)
    (hinv : RegInv s) : RegInv s2 := by
  obtain ⟨-, hact, rfl⟩ := deactivateAsset_ok_elim s sender assetCode s2 hs
  intro k hk
  by_cases hkc : k = assetCode
  · subst hkc; simp [setAsset] at hk
  · simp only [setAsset, hkc, if_false] at hk ⊢
    exact hinv k hk

theorem regInv_transfer (s s2 : RegistryState) (sender newOwner : Nat)
    (hs : transferOwnership s sender newOwner = .ok s2)
    (hinv : RegInv s) : RegInv s2 := by
  obtain ⟨-, -, rfl⟩ := transferOwnership_ok_elim s sender newOwner s2 hs
  exact hinv

theorem submitProof_ok_elim (oracle : Nat → Option Nat) (p p2 : PoRState)
    (sender now assetCode dataFeedId : Nat)
    (hs : submitProof oracle p sender now assetCode dataFeedId = .ok p2) :
    sender = p.owner ∧ ∃ v r, oracle dataFeedId = some v ∧ 0 < v ∧
      updateAssetValue p.registry p.selfAddr now assetCode v = .ok r ∧
      p2 = { p with
        registry := r
        latestProofs := setReserve p.latestProofs assetCode
          { value := v, timestamp := now, dataFeedId := dataFeedId } } := by
  unfold submitProof at hs
  split at hs
  · cases hs
  · split at hs
    · cases hs
    · split at hs
      · cases hs
      · split at hs
        · cases hs
        · cases hs
          refine ⟨by omega, ?_, ?_, by assumption, by omega, by assumption, rfl⟩

theorem regInv_step (s s2 : RegistryState) (h : RegStep s s2) (hinv : RegInv s) :
    RegInv s2 := by
  cases h with
  | direct s s2 sender now c hc =>
    cases c with
    | register code n st j v mt oz h hold =>
      exact regInv_register s s2 sender now code n st j v mt oz h hold hc hinv
    | update code v => exact regInv_update s s2 sender now code v hc hinv
    | deactivate code => exact regInv_deactivate s s2 sender code hc hinv
    | transfer o => exact regInv_transfer s s2 sender o hc hinv
  | viaCoordinator oracle p p2 sender now code feed hc =>
    obtain ⟨-, v, r, -, -, hupd, rfl⟩ :=
      submitProof_ok_elim oracle p p2 sender now code feed hc
    exact regInv_update p.registry r p.selfAddr now code v hupd hinv

theorem regInv_init (deployer : Nat) : RegInv (initRegistry deployer) := by
  intro k hk
  simp [initRegistry, defaultAsset] at hk


/-- C5: in every reachable registry state, every active record has a
positive value and a non-zero holder; the invariant is preserved by every
exposed transition, submitProof through the coordinator included. -/
theorem reachable_registry_invariant (s : RegistryState) (h : Reachable s) :
    RegInv s := by
  obtain ⟨d, hr⟩ := h
  induction hr with
  | refl => exact regInv_init d
  | tail hab hbc ih => exact regInv_step _ _ hbc ih

theorem reachable_registry_invariant_witness : RegInv (initRegistry 1) :=
  reachable_registry_invariant (initRegistry 1) ⟨1, Relation.ReflTransGen.refl⟩

/-- C3: a valid registerAsset followed by getAsset returns exactly the
registered fields with isActive true and lastUpdated now, and the asset
count grows by exactly one. -/
theorem register_then_get (s : RegistryState) (sender now assetCode : Nat)
    (n st j : String) (v mt oz h hold : Nat)
    (hown : sender = s.owner) (hfree : (s.assets assetCode).isActive = false)
    (hv : 0 < v) (hhold : hold ≠ 0) :
    ∃ s2, registerAsset s sender now assetCode n st j v mt oz h hold = .ok s2 ∧
      getAsset s2 assetCode = .ok
        { assetCode := assetCode, assetName := n, reportingStandard := st
          jurisdiction := j, assetValueUsd := v, mineralResourcesMt := mt
          goldOzInSitu := oz, reportHash := h, lastUpdated := now
          holder := hold, isActive := true } ∧
      getAssetCount s2 = getAssetCount s + 1 := by
  subst hown
  refine ⟨{ s with
      assets := setAsset s.assets assetCode
        { assetCode := assetCode, assetName := n, reportingStandard := st
          jurisdiction := j, assetValueUsd := v, mineralResourcesMt := mt
          goldOzInSitu := oz, reportHash := h, lastUpdated := now
          holder := hold, isActive := true }
      assetCodes := s.assetCodes ++ [assetCode] }, ?_, ?_, ?_⟩
  · unfold registerAsset
    rw [if_neg (by simp), if_neg (by simp [hfree]), if_neg (by omega),
      if_neg (by simpa using hhold)]
  · simp [getAsset, setAsset]
  · simp [getAssetCount]

theorem register_then_get_witness :
    ∃ s2, registerAsset demoS0 1 10 42 "Witness Asset" "LBMA" "CH" 5 1 2 3 9 = .ok s2 ∧
      getAsset s2 42 = .ok
        { assetCode := 42, assetName := "Witness Asset", reportingStandard := "LBMA"
          jurisdiction := "CH", assetValueUsd := 5, mineralResourcesMt := 1
          goldOzInSitu := 2, reportHash := 3, lastUpdated := 10
          holder := 9, isActive := true } ∧
      getAssetCount s2 = getAssetCount demoS0 + 1 :=
  register_then_get demoS0 1 10 42 "Witness Asset" "LBMA" "CH" 5 1 2 3 9
    rfl rfl (by decide) (by decide)


/-- C4: registerAsset fails with Unauthorized for a non-owner caller, with
AlreadyExists when an active record occupies the code, with InvalidValue
on a zero value, with InvalidHolder on a zero holder (checked in that
order), and every failure reverts, leaving the registry unchanged. -/
theorem register_failure_cases (s : RegistryState) (sender now assetCode : Nat)
    (n st j : String) (v mt oz h hold : Nat) :
    (sender ≠ s.owner →
      registerAsset s sender now assetCode n st j v mt oz h hold
        = .error .Unauthorized) ∧
    (sender = s.owner → (s.assets assetCode).isActive = true →
      registerAsset s sender now assetCode n st j v mt oz h hold
        = .error .AlreadyExists) ∧
    (sender = s.owner → (s.assets assetCode).isActive = false → v = 0 →
      registerAsset s sender now assetCode n st j v mt oz h hold
        = .error .InvalidValue) ∧
    (sender = s.owner → (s.assets assetCode).isActive = false → 0 < v → hold = 0 →
      registerAsset s sender now assetCode n st j v mt oz h hold
        = .error .InvalidHolder) ∧
    (∀ e, registerAsset s sender now assetCode n st j v mt oz h hold = .error e →
      commitReg s (registerAsset s sender now assetCode n st j v mt oz h hold) = s) := by
  refine ⟨?_, ?_, ?_, ?_, ?_⟩
  · intro hne; simp [registerAsset, hne]
  · intro hown hact; subst hown; simp [registerAsset, hact]
  · intro hown hfree hz; subst hown hz; simp [registerAsset, hfree]
  · intro hown hfree hv hz; subst hown hz
    simp [registerAsset, hfree, Nat.not_lt_of_lt, hv, Nat.pos_iff_ne_zero.mp hv]
  · intro e he; rw [he]; rfl

theorem register_failure_cases_witness :
    registerAsset demoS0 2 0 7 "a" "b" "c" 5 0 0 0 9 = .error .Unauthorized ∧
    commitReg demoS0 (registerAsset demoS0 2 0 7 "a" "b" "c" 5 0 0 0 9) = demoS0 :=
  ⟨(register_failure_cases demoS0 2 0 7 "a" "b" "c" 5 0 0 0 9).1 (by decide),
   (register_failure_cases demoS0 2 0 7 "a" "b" "c" 5 0 0 0 9).2.2.2.2 .Unauthorized
     ((register_failure_cases demoS0 2 0 7 "a" "b" "c" 5 0 0 0 9).1 (by decide))⟩

/-- C7: deactivating an active record succeeds, makes getAsset fail with
NotFound, keeps the count and every enumeration index unchanged, clears
only the isActive field of that record, and touches no other record. -/
theorem deactivate_frame (s : RegistryState) (sender assetCode : Nat)
    (hown : sender = s.owner) (hact : (s.assets assetCode).isActive = true) :
    ∃ s2, deactivateAsset s sender assetCode = .ok s2 ∧
      getAsset s2 assetCode = .error .NotFound ∧
      getAssetCount s2 = getAssetCount s ∧
      s2.assetCodes = s.assetCodes ∧
      (∀ i, getAssetCodeByIndex s2 i = getAssetCodeByIndex s i) ∧
      s2.assets assetCode = { s.assets assetCode with isActive := false } ∧
      (∀ c, c ≠ assetCode → s2.assets c = s.assets c) ∧
      s2.owner = s.owner := by
  subst hown
  refine ⟨{ s with
      assets := setAsset s.assets assetCode
        { s.assets assetCode with isActive := false } },
    ?_, ?_, rfl, rfl, fun i => rfl, ?_, ?_, rfl⟩
  · unfold deactivateAsset
    rw [if_neg (by simp), if_neg (by simp [hact])]
  · simp [getAsset, setAsset]
  · simp [setAsset]
  · intro c hc; simp [setAsset, hc]

theorem deactivate_frame_witness :
    ∃ s2, deactivateAsset wReg 1 5 = .ok s2 ∧
      getAsset s2 5 = .error .NotFound ∧
      getAssetCount s2 = getAssetCount wReg ∧
      s2.assetCodes = wReg.assetCodes ∧
      (∀ i, getAssetCodeByIndex s2 i = getAssetCodeByIndex wReg i) ∧
      s2.assets 5 = { wReg.assets 5 with isActive := false } ∧
      (∀ c, c ≠ 5 → s2.assets c = wReg.assets c) ∧
      s2.owner = wReg.owner :=
  deactivate_frame wReg 1 5 rfl rfl


/-- C1: an owner submitProof whose verified value v is positive, on
success, leaves the stored proof equal to the triple of v, now and the
feed id and the registry record value equal to v; and whenever the
updateAssetValue sub-call fails, the whole call fails and reverts, the
proof record staying exactly as before (all-or-nothing). -/
theorem submitProof_atomic (oracle : Nat → Option Nat) (p : PoRState)
    (sender now assetCode dataFeedId v : Nat)
    (hown : sender = p.owner) (hor : oracle dataFeedId = some v) (hv : 0 < v) :
    (∀ p2, submitProof oracle p sender now assetCode dataFeedId = .ok p2 →
      (p2.latestProofs assetCode).value = v ∧
      (p2.latestProofs assetCode).timestamp = now ∧
      (p2.latestProofs assetCode).dataFeedId = dataFeedId ∧
      (p2.registry.assets assetCode).assetValueUsd = v) ∧
    (∀ e, updateAssetValue p.registry p.selfAddr now assetCode v = .error e →
      submitProof oracle p sender now assetCode dataFeedId
        = .error (.RegistryCall e) ∧
      commitPoR p (submitProof oracle p sender now assetCode dataFeedId) = p) := by
  subst hown
  constructor
  · intro p2 hp2
    obtain ⟨-, w, r, hw, -, hupd, rfl⟩ :=
      submitProof_ok_elim oracle p p2 p.owner now assetCode dataFeedId hp2
    rw [hor] at hw
    injection hw with hw2
    subst hw2
    obtain ⟨-, -, -, rfl⟩ :=
      updateAssetValue_ok_elim p.registry p.selfAddr now assetCode v r hupd
    refine ⟨by simp [setReserve], by simp [setReserve], by simp [setReserve],
      by simp [setAsset]⟩
  · intro e he
    have hrun : submitProof oracle p p.owner now assetCode dataFeedId
        = .error (.RegistryCall e) := by
      unfold submitProof
      rw [if_neg (by simp), hor]
      simp only [hv, he, not_true_eq_false, Nat.lt_irrefl, if_neg, not_lt,
        Nat.le_zero, if_false]
    exact ⟨hrun, by rw [hrun]; rfl⟩

theorem submitProof_atomic_witness :
    (∀ p2, submitProof wOracle wPoR 1 50 5 8 = .ok p2 →
      (p2.latestProofs 5).value = 7000000000 ∧
      (p2.latestProofs 5).timestamp = 50 ∧
      (p2.latestProofs 5).dataFeedId = 8 ∧
      (p2.registry.assets 5).assetValueUsd = 7000000000) ∧
    (∀ e, updateAssetValue wPoR.registry wPoR.selfAddr 50 5 7000000000 = .error e →
      submitProof wOracle wPoR 1 50 5 8 = .error (.RegistryCall e) ∧
      commitPoR wPoR (submitProof wOracle wPoR 1 50 5 8) = wPoR) :=
  submitProof_atomic wOracle wPoR 1 50 5 8 7000000000 rfl rfl (by decide)


/-- C2 counterexample: code 5 is registered, deactivated (the record is
present and inactive), and then a second owner registerAsset under code 5
succeeds and the record is active again, so a deactivated code is not
terminal and registration is not blocked by an inactive record. -/
theorem deactivated_code_reactivated :
    (Except.map (fun s => (s.assets 5).isActive) demoStep2 = .ok false) ∧
    (Except.map (fun s => (s.assets 5).isActive) demoStep3 = .ok true) :=
  ⟨rfl, rfl⟩

/-- C2 amended: registerAsset is blocked, with AlreadyExists, only by an
ACTIVE record under the code; with valid arguments and an inactive
(deactivated) record present it succeeds and returns the code to active,
overwriting the record. -/
theorem register_blocked_only_by_active (s : RegistryState)
    (sender now assetCode : Nat) (n st j : String) (v mt oz h hold : Nat)
    (hown : sender = s.owner) (hv : 0 < v) (hhold : hold ≠ 0) :
    ((s.assets assetCode).isActive = true →
      registerAsset s sender now assetCode n st j v mt oz h hold
        = .error .AlreadyExists) ∧
    ((s.assets assetCode).isActive = false →
      ∃ s2, registerAsset s sender now assetCode n st j v mt oz h hold = .ok s2 ∧
        (s2.assets assetCode).isActive = true) := by
  subst hown
  constructor
  · intro hact; simp [registerAsset, hact]
  · intro hfree
    refine ⟨{ s with
        assets := setAsset s.assets assetCode
          { assetCode := assetCode, assetName := n, reportingStandard := st
            jurisdiction := j, assetValueUsd := v, mineralResourcesMt := mt
            goldOzInSitu := oz, reportHash := h, lastUpdated := now
            holder := hold, isActive := true }
        assetCodes := s.assetCodes ++ [assetCode] }, ?_, ?_⟩
    · unfold registerAsset
      rw [if_neg (by simp), if_neg (by simp [hfree]), if_neg (by omega),
        if_neg (by simpa using hhold)]
    · simp [setAsset]

theorem register_blocked_only_by_active_witness :
    ∃ s2, registerAsset wInact 1 300 5 "Back Again" "JORC" "ZA" 4 0 0 1 9 = .ok s2 ∧
      (s2.assets 5).isActive = true :=
  (register_blocked_only_by_active wInact 1 300 5 "Back Again" "JORC" "ZA" 4 0 0 1 9
    rfl (by decide) (by decide)).2 rfl

/-- C9: registerAsset places no constraint on the document hash: a
registration carrying an all-zero report hash succeeds, and for that
record verifyReportHash with the all-zero candidate returns true. -/
theorem register_allows_zero_hash :
    (Except.map (fun s => (s.assets 8).isActive) c9state = .ok true) ∧
    (Except.map (fun s => verifyReportHash s 8 0) c9state = .ok (.ok true)) :=
  ⟨rfl, rfl⟩

/-- C10: register code 5, deactivate it, register it again: the second
registration succeeds and pushes code 5 onto the enumeration array a
second time, so the count is 2 and indices 0 and 1 both hold code 5. -/
theorem reregistration_duplicates_enumeration :
    Except.map
      (fun s => (getAssetCount s, getAssetCodeByIndex s 0, getAssetCodeByIndex s 1))
      demoStep3 = .ok (2, .ok 5, .ok 5) :=
  rfl


/-- C6 counterexample: code 6 is registered with an all-zero document
hash; verifyReportHash with the all-zero candidate then returns true, not
false, so an all-zero candidate does not always return false. -/
theorem zero_candidate_not_always_false :
    (Except.map (fun s => verifyReportHash s 6 0) c6state = .ok (.ok true)) ∧
    Except.map (fun s => verifyReportHash s 6 0) c6state ≠ .ok (.ok false) := by
  refine ⟨rfl, ?_⟩
  intro hcontra
  have h2 : (Except.ok (Except.ok true) :
      Except RegistryError (Except RegistryError Bool)) = .ok (.ok false) := hcontra
  simp at h2

/-- C6 amended: for an active record, verifyReportHash returns ok true
exactly when the candidate equals the stored hash; an all-zero candidate
returns ok false whenever the stored hash is non-zero; and
verifyReportHash fails with exactly the errors getAsset fails with. -/
theorem verifyHash_spec (s : RegistryState) (assetCode h : Nat) :
    ((s.assets assetCode).isActive = true →
      (verifyReportHash s assetCode h = .ok true ↔
        (s.assets assetCode).reportHash = h)) ∧
    ((s.assets assetCode).isActive = true →
      (s.assets assetCode).reportHash ≠ 0 →
      verifyReportHash s assetCode 0 = .ok false) ∧
    (∀ e, verifyReportHash s assetCode h = .error e ↔
      getAsset s assetCode = .error e) := by
  refine ⟨?_, ?_, ?_⟩
  · intro hact
    simp [verifyReportHash, hact]
  · intro hact hnz
    simp [verifyReportHash, hact, hnz]
  · intro e
    unfold verifyReportHash getAsset
    by_cases hact : (s.assets assetCode).isActive = true
    · simp [hact]
    · simp only [Bool.not_eq_true] at hact
      simp [hact]

theorem verifyHash_spec_witness :
    verifyReportHash wReg 5 777 = .ok true ∧ verifyReportHash wReg 5 0 = .ok false :=
  ⟨((verifyHash_spec wReg 5 777).1 rfl).mpr rfl,
   (verifyHash_spec wReg 5 777).2.1 rfl (by decide)⟩

theorem runReg_not_owner (s : RegistryState) (sender now : Nat) (d : RegCall)
    (h : sender ≠ s.owner) : runReg s sender now d = .error .Unauthorized := by
  cases d <;>
    simp [runReg, registerAsset, updateAssetValue, deactivateAsset,
      transferOwnership, h]

theorem runReg_owner_authorized (s : RegistryState) (now : Nat) (d : RegCall) :
    runReg s s.owner now d ≠ .error .Unauthorized := by
  cases d with
  | register c n st j v mt oz h hold =>
    simp only [runReg, registerAsset]
    rw [if_neg (by simp)]
    split
    · simp
    · split
      · simp
      · split <;> simp
  | update c v =>
    simp only [runReg, updateAssetValue]
    rw [if_neg (by simp)]
    split
    · simp
    · split <;> simp
  | deactivate c =>
    simp only [runReg, deactivateAsset]
    rw [if_neg (by simp)]
    split <;> simp
  | transfer o =>
    simp only [runReg, transferOwnership]
    rw [if_neg (by simp)]
    split <;> simp

theorem runPoR_not_owner (oracle : Nat → Option Nat) (p : PoRState)
    (sender now : Nat) (d : PoRCall) (h : sender ≠ p.owner) :
    runPoR oracle p sender now d = .error .Unauthorized := by
  cases d <;>
    simp [runPoR, submitProof, porRegisterAsset, updateRegistry,
      porTransferOwnership, h]

theorem runPoR_owner_authorized (oracle : Nat → Option Nat) (p : PoRState)
    (now : Nat) (d : PoRCall) :
    runPoR oracle p p.owner now d ≠ .error .Unauthorized := by
  cases d with
  | submit c f =>
    simp only [runPoR, submitProof]
    rw [if_neg (by simp)]
    split
    · simp
    · split
      · simp
      · split <;> simp
  | register c n st j v mt oz h hold =>
    simp only [runPoR, porRegisterAsset]
    rw [if_neg (by simp)]
    split <;> simp
  | setRegistry a r =>
    simp only [runPoR, updateRegistry]
    rw [if_neg (by simp)]
    split <;> simp
  | transfer o =>
    simp only [runPoR, porTransferOwnership]
    rw [if_neg (by simp)]
    split <;> simp


/-- C8 counterexample: the owner (address 1) transfers ownership to the
non-zero address 1, itself; the previous owner is then still the owner,
and its very next mutating call succeeds instead of failing with
Unauthorized. -/
theorem self_transfer_keeps_previous_owner :
    (Except.map (fun s => s.owner) (transferOwnership demoS0 1 1) = .ok 1) ∧
    (Except.map (fun s => s.owner)
      (transferOwnership (commitReg demoS0 (transferOwnership demoS0 1 1)) 1 2)
        = .ok 2) :=
  ⟨rfl, rfl⟩

/-- C8 amended: on both components, transferOwnership fails with
Unauthorized for a non-owner caller and with InvalidHolder for a zero new
owner; a successful transfer to a non-zero X installs X, after which, when
X differs from the previous owner, every mutating call by the previous
owner fails with Unauthorized, and every mutating call by X passes the
authorization check. -/
theorem ownership_transfer_spec (s : RegistryState) (p : PoRState)
    (caller x now : Nat) :
    (caller ≠ s.owner → transferOwnership s caller x = .error .Unauthorized) ∧
    (caller = s.owner → x = 0 → transferOwnership s caller x = .error .InvalidHolder) ∧
    (caller ≠ p.owner → porTransferOwnership p caller x = .error .Unauthorized) ∧
    (caller = p.owner → x = 0 →
      porTransferOwnership p caller x = .error .InvalidHolder) ∧
    (caller = s.owner → x ≠ 0 →
      ∃ s2, transferOwnership s caller x = .ok s2 ∧ s2.owner = x ∧
        (caller ≠ x → ∀ d, runReg s2 caller now d = .error .Unauthorized) ∧
        (∀ d, runReg s2 x now d ≠ .error .Unauthorized)) ∧
    (caller = p.owner → x ≠ 0 →
      ∃ p2, porTransferOwnership p caller x = .ok p2 ∧ p2.owner = x ∧
        (caller ≠ x → ∀ oracle d, runPoR oracle p2 caller now d = .error .Unauthorized) ∧
        (∀ oracle d, runPoR oracle p2 x now d ≠ .error .Unauthorized)) := by
  refine ⟨?_, ?_, ?_, ?_, ?_, ?_⟩
  · intro hne; simp [transferOwnership, hne]
  · intro hc hx; subst hc hx; simp [transferOwnership]
  · intro hne; simp [porTransferOwnership, hne]
  · intro hc hx; subst hc hx; simp [porTransferOwnership]
  · intro hc hx; subst hc
    refine ⟨{ s with owner := x }, ?_, rfl, ?_, ?_⟩
    · unfold transferOwnership
      rw [if_neg (by simp), if_neg hx]
    · intro hne d
      exact runReg_not_owner _ _ now d (by simpa using hne)
    · intro d
      exact runReg_owner_authorized { s with owner := x } now d
  · intro hc hx; subst hc
    refine ⟨{ p with owner := x }, ?_, rfl, ?_, ?_⟩
    · unfold porTransferOwnership
      rw [if_neg (by simp), if_neg hx]
    · intro hne oracle d
      exact runPoR_not_owner oracle _ _ now d (by simpa using hne)
    · intro oracle d
      exact runPoR_owner_authorized oracle { p with owner := x } now d

theorem ownership_transfer_spec_witness :
    (∃ s2, transferOwnership demoS0 1 2 = .ok s2 ∧ s2.owner = 2 ∧
      ((1 : Nat) ≠ 2 → ∀ d, runReg s2 1 0 d = .error .Unauthorized) ∧
      (∀ d, runReg s2 2 0 d ≠ .error .Unauthorized)) ∧
    (∃ p2, porTransferOwnership wPoR 1 2 = .ok p2 ∧ p2.owner = 2 ∧
      ((1 : Nat) ≠ 2 → ∀ oracle d, runPoR oracle p2 1 0 d = .error .Unauthorized) ∧
      (∀ oracle d, runPoR oracle p2 2 0 d ≠ .error .Unauthorized)) :=
  ⟨(ownership_transfer_spec demoS0 wPoR 1 2 0).2.2.2.2.1 rfl (by decide),
   (ownership_transfer_spec demoS0 wPoR 1 2 0).2.2.2.2.2 rfl (by decide)⟩

end QXMP
